import Mathlib

/-!
Verification of the foxy-fabrications-admin core logic.

This file shallowly embeds the Rust source of the admin backend
(`src/auth.rs`, `src/user_state.rs`, `src/models.rs`,
`src/handlers/auth.rs`, `src/handlers/order_processing.rs`,
`src/handlers/quote_processing.rs`, `src/handlers/product_management.rs`)
as executable Lean definitions and proves properties of them.

Modelling conventions:
* `u32` values are `Nat` with explicit wrapping via `% 2^32` where Rust
  release-mode arithmetic wraps; `u64 -> u32` `as`-casts truncate via
  `% 2^32`; float-to-int `as`-casts saturate.
* The stored MongoDB collections are embedded as Lean lists of records;
  `find` with a filter document returns the filtered list, `update_one`
  and `delete_one` affect the first matching document.
* Strings use Lean `String`, but every operation on them (trim, byte
  length, prefix test, lexicographic comparison, parsing) is defined
  here over `String.toList` so that everything evaluates by `decide`.
  Rust compares `String`s bytewise; UTF-8 byte order coincides with the
  code-point order used here.
* `f64` values produced by `str::parse::<f64>` are modelled exactly as
  decimal mantissa/exponent pairs (plus infinities and NaN).  No
  rounding to binary is performed; this model agrees with IEEE f64
  semantics whenever rounding does not cross one of the two comparison
  thresholds used by the program (`< 0.0`, `> 999999.99`), which holds
  at every input considered in the theorems below.
-/

namespace FoxyAdmin

/-! ## Machine-integer helpers -/

/-- Modulus of `u32` arithmetic. -/
def U32 : Nat := 4294967296

/-- Largest `u32` value; saturation target of float-to-`u32` casts. -/
def u32Max : Nat := 4294967295

/-- Wrapping `u32` addition. -/
def add32 (a b : Nat) : Nat := (a + b) % U32

/-- Wrapping `u32` subtraction (callers pass `b ≤ U32`). -/
def sub32 (a b : Nat) : Nat := (a + U32 - b) % U32

/-- Wrapping `u32` multiplication. -/
def mul32 (a b : Nat) : Nat := (a * b) % U32

/-- Truncating `u64 -> u32` cast (Rust `as u32`). -/
def toU32 (n : Nat) : Nat := n % U32

/-! ## String helpers (Rust `str` operations over `List Char`) -/

/-- Rust `str::trim` on the character list (Unicode-whitespace ends removed;
Lean's `Char.isWhitespace` covers the ASCII whitespace relevant here). -/
def trimChars (l : List Char) : List Char :=
  ((l.dropWhile Char.isWhitespace).reverse.dropWhile Char.isWhitespace).reverse

/-- Rust `str::trim`. -/
def strTrim (s : String) : String := String.mk (trimChars s.toList)

/-- Rust `String::len` (UTF-8 byte count) of one scalar value. -/
def charUtf8Len (c : Char) : Nat :=
  if c.toNat < 128 then 1
  else if c.toNat < 2048 then 2
  else if c.toNat < 65536 then 3
  else 4

/-- Rust `String::len`: UTF-8 byte length. -/
def strByteLen (s : String) : Nat := (s.toList.map charUtf8Len).sum

/-- Rust `str::starts_with` for a literal prefix. -/
def strStartsWith (s pre : String) : Bool := pre.toList.isPrefixOf s.toList

/-- Bytewise (= code-point-wise) lexicographic `≤` on character lists,
the order used by Rust `String::cmp`. -/
def lexLe : List Char → List Char → Bool
  | [], _ => true
  | _ :: _, [] => false
  | x :: xs, y :: ys =>
    if x.toNat < y.toNat then true
    else if y.toNat < x.toNat then false
    else lexLe xs ys

/-- Rust `String` comparison `a ≤ b`. -/
def strLe (a b : String) : Bool := lexLe a.toList b.toList

/-! ## Data model (`src/models.rs`) -/

/-- `UserState` (models.rs): per-request view of the session identity. -/
structure UserState where
  is_authenticated : Bool
  username : String
  is_admin : Bool
  logged_in : Bool
deriving DecidableEq, Repr

/-- `UserState::new` (models.rs lines 35-42): keeps `logged_in` in sync
with `is_authenticated`. -/
def UserState.new (is_authenticated : Bool) (username : String)
    (is_admin : Bool) : UserState :=
  { is_authenticated := is_authenticated
    logged_in := is_authenticated
    username := username
    is_admin := is_admin }

/-- `UserState::default` (derived `Default`): all fields false/empty. -/
def UserState.defaultState : UserState :=
  { is_authenticated := false, username := "", is_admin := false, logged_in := false }

/-- `User` (models.rs): document of the `users` collection.  The
`ObjectId` is represented by its canonical lowercase hex string. -/
structure User where
  id : String
  username : String
  password_hash : String
  is_admin : Bool
deriving DecidableEq, Repr

/-- `Credentials` (models.rs): the login form. -/
structure Credentials where
  username : String
  password : String
  next : Option String
deriving DecidableEq, Repr

/-- `ShippingAddress` (models.rs). -/
structure ShippingAddress where
  line1 : String
  line2 : Option String
  city : String
  postcode : String
  country : String
deriving DecidableEq, Repr

/-- `OrderItem` (models.rs).  The `f64` fields are passed through
untouched by the code under verification and are modelled as `ℚ`. -/
structure OrderItem where
  product_id : String
  product_name : String
  quantity : Int
  price : ℚ
  line_total : ℚ
deriving DecidableEq, Repr

/-- `Order` (models.rs): document of the `orders` / `completed_orders`
collections. -/
structure Order where
  id : String
  order_reference : String
  customer_name : String
  customer_email : String
  shipping_address : ShippingAddress
  items : List OrderItem
  subtotal : ℚ
  shipping_cost : ℚ
  total : ℚ
  currency : String
  status : String
  created_at : String
  updated_at : String
deriving DecidableEq, Repr

/-- `Product` (models.rs): document of the `products` collection.  Note
that `price` is stored as a `String` in the schema. -/
structure Product where
  id : String
  name : String
  image_url : String
  price : String
  quantity : Int
  description : String
  adoptable : Bool
deriving DecidableEq, Repr

/-- `EditProductForm` (models.rs): `adoptable` is `Some "on"` when the
checkbox is checked, `None` otherwise. -/
structure EditProductForm where
  name : String
  price : String
  quantity : String
  description : String
  adoptable : Option String
deriving DecidableEq, Repr

/-- `OrderQueryParams` (models.rs): query parameters of `GET /orders`. -/
structure OrderQueryParams where
  page : Option Nat
  show_completed : Option String
  page_size : Option Nat
deriving DecidableEq, Repr

/-- `UpdateOrderStatusForm` (models.rs). -/
structure UpdateOrderStatusForm where
  order_id : String
  status : String
deriving DecidableEq, Repr

/-- `OrderOperationResponse` (models.rs): JSON response of the order
endpoints. -/
structure OrderOperationResponse where
  success : Bool
  message : String
  order_id : Option String
deriving DecidableEq, Repr

/-- `ProductOperationResponse` (models.rs). -/
structure ProductOperationResponse where
  success : Bool
  message : String
  product_id : Option String
deriving DecidableEq, Repr

/-- `PaginationInfo` (models.rs). -/
structure PaginationInfo where
  current_page : Nat
  total_pages : Nat
  has_prev : Bool
  has_next : Bool
  start_item : Nat
  end_item : Nat
  total_items : Nat
deriving DecidableEq, Repr

/-! ## `src/user_state.rs` -/

/-- `extract_user_state` (user_state.rs lines 5-14): the session either
carries a `User` or is anonymous. -/
def extract_user_state (session : Option User) : UserState :=
  match session with
  | some user => UserState.new true user.username user.is_admin
  | none => UserState.defaultState

/-! ## `src/handlers/auth.rs`: redirect-target validation -/

/-- `validate_redirect_url` (handlers/auth.rs lines 24-27). -/
def validate_redirect_url (url : String) : Bool :=
  strStartsWith url "/" && !(strStartsWith url "//")

/-- `get_safe_redirect_url` (handlers/auth.rs lines 29-34). -/
def get_safe_redirect_url (query : Option String) : String :=
  match query with
  | some url => if validate_redirect_url url then url else "/products"
  | none => "/products"

/-! ## Pagination (`order_processing.rs` 329-356, `quote_processing.rs` 278-306)

Both copies compute `total_pages` as
`((total_items as f64) / (page_size as f64)).ceil() as u32`.
This is modelled as the exact ceiling division saturated at `u32::MAX`
(the behaviour of Rust's saturating float-to-int cast), and as `u32Max`
for `page_size = 0` (division by `0.0` yields `+inf`).  For
`1 ≤ page_size ≤ 100` the model is exact for every `u64 total_items`:
below `2^52` the float division and ceiling are exact, and above that
both the float result and the exact ceiling are `≥ 2^45 > u32::MAX`,
so both saturate. -/

/-- Shared `total_pages` computation of the two pagination copies. -/
def paginationTotalPages (page_size total_items : Nat) : Nat :=
  if total_items = 0 then 1
  else if page_size = 0 then u32Max
  else min ((total_items + page_size - 1) / page_size) u32Max

/-- `create_pagination_info` (order_processing.rs lines 329-356). -/
def orderCreatePaginationInfo (current_page page_size total_items : Nat) :
    PaginationInfo :=
  let total_pages := paginationTotalPages page_size total_items
  let has_prev := decide (current_page > 1)
  let has_next := decide (current_page < total_pages)
  let se : Nat × Nat :=
    if total_items = 0 then (0, 0)
    else
      let start := add32 (mul32 (sub32 current_page 1) page_size) 1
      (start, min (sub32 (add32 start page_size) 1) (toU32 total_items))
  { current_page := current_page
    total_pages := total_pages
    has_prev := has_prev
    has_next := has_next
    start_item := se.1
    end_item := se.2
    total_items := total_items }

/-- `create_pagination_info` (quote_processing.rs lines 278-306). -/
def quoteCreatePaginationInfo (current_page page_size total_items : Nat) :
    PaginationInfo :=
  let total_pages := paginationTotalPages page_size total_items
  let start_item :=
    if total_items = 0 then 0
    else add32 (mul32 (sub32 current_page 1) page_size) 1
  let end_item :=
    if total_items = 0 then 0
    else min (mul32 current_page page_size) (toU32 total_items)
  { current_page := current_page
    total_pages := total_pages
    has_prev := decide (current_page > 1)
    has_next := decide (current_page < total_pages)
    start_item := start_item
    end_item := end_item
    total_items := total_items }

/-! ## Arithmetic lemmas about the wrapped pagination expressions -/

lemma U32_pos : 0 < U32 := by unfold U32; omega

lemma mul32_mod_left (a b : Nat) : mul32 (a % U32) b = mul32 a b := by
  unfold mul32
  rw [Nat.mul_mod, Nat.mod_mod_of_dvd _ dvd_rfl, ← Nat.mul_mod]

lemma add32_mod_left (a b : Nat) : add32 (a % U32) b = add32 a b := by
  unfold add32
  rw [Nat.add_mod, Nat.mod_mod_of_dvd _ dvd_rfl, ← Nat.add_mod]

/-- The order copy's `end` expression `(start + page_size - 1)` (with
`start = (page-1)*page_size + 1`) equals the quote copy's
`current_page * page_size`, in wrapping `u32` arithmetic, for all inputs. -/
lemma pagination_end_expr_eq (c ps : Nat) :
    sub32 (add32 (add32 (mul32 (sub32 c 1) ps) 1) ps) 1 = mul32 c ps := by
  have h1 : mul32 (sub32 c 1) ps = ((c + U32 - 1) * ps) % U32 := by
    unfold sub32
    rw [mul32_mod_left]
    rfl
  have h2 : add32 (((c + U32 - 1) * ps) % U32) 1 = ((c + U32 - 1) * ps + 1) % U32 := by
    rw [add32_mod_left]
    rfl
  have h3 : add32 (((c + U32 - 1) * ps + 1) % U32) ps
      = ((c + U32 - 1) * ps + 1 + ps) % U32 := by
    rw [add32_mod_left]
    rfl
  have h4 : (c + U32 - 1) * ps + 1 + ps = (c * ps + 1) + U32 * ps := by
    have hU : (1 : Nat) ≤ U32 := by unfold U32; omega
    have e : c + U32 - 1 = c + (U32 - 1) := by omega
    rw [e]
    have e2 : (c + (U32 - 1)) * ps = c * ps + (U32 - 1) * ps := by ring
    rw [e2]
    have e3 : U32 * ps = (U32 - 1) * ps + ps := by
      have h : U32 = (U32 - 1) + 1 := by omega
      calc U32 * ps = ((U32 - 1) + 1) * ps := by rw [← h]
        _ = (U32 - 1) * ps + ps := by ring
    omega
  rw [h1, h2, h3, h4]
  have h5 : ((c * ps + 1) + U32 * ps) % U32 = (c * ps + 1) % U32 := by
    exact Nat.add_mul_mod_self_left (c * ps + 1) U32 ps
  rw [h5]
  unfold sub32 mul32
  have hU : (1 : Nat) ≤ U32 := by unfold U32; omega
  have e6 : (c * ps + 1) % U32 + U32 - 1 = (c * ps + 1) % U32 + (U32 - 1) := by omega
  rw [e6, Nat.mod_add_mod]
  have e7 : c * ps + 1 + (U32 - 1) = c * ps + U32 := by omega
  rw [e7, Nat.add_mod_right]

lemma paginationTotalPages_in_range (page_size total_items : Nat)
    (hs1 : 1 ≤ page_size) (ht : total_items < U32) :
    paginationTotalPages page_size total_items
      = max 1 ((total_items + page_size - 1) / page_size) := by
  unfold paginationTotalPages
  by_cases h : total_items = 0
  · subst h
    have hd : (0 + page_size - 1) / page_size = 0 := Nat.div_eq_of_lt (by omega)
    rw [hd]
    simp
  · have hps : page_size ≠ 0 := by omega
    have hceil_le : (total_items + page_size - 1) / page_size ≤ total_items := by
      rw [Nat.div_le_iff_le_mul_add_pred (by omega)]
      have : total_items ≤ page_size * total_items :=
        Nat.le_mul_of_pos_left total_items (by omega)
      omega
    have hmin : min ((total_items + page_size - 1) / page_size) u32Max
        = (total_items + page_size - 1) / page_size := by
      apply Nat.min_eq_left
      have : total_items ≤ u32Max := by
        unfold U32 at ht
        unfold u32Max
        omega
      omega
    have hge : 1 ≤ (total_items + page_size - 1) / page_size := by
      rw [Nat.one_le_div_iff (by omega)]
      omega
    simp [h, hps, hmin]
    omega

lemma pagination_start_in_range (page page_size : Nat)
    (hp : 1 ≤ page) (hs1 : 1 ≤ page_size) (hmul : page * page_size < U32) :
    add32 (mul32 (sub32 page 1) page_size) 1 = (page - 1) * page_size + 1 := by
  have hdist : (page - 1) * page_size + page_size = page * page_size := by
    have e : page - 1 + 1 = page := by omega
    calc (page - 1) * page_size + page_size = ((page - 1) + 1) * page_size := by ring
      _ = page * page_size := by rw [e]
  have hpU : page < U32 := by
    have : page ≤ page * page_size := Nat.le_mul_of_pos_right page (by omega)
    omega
  have h1 : sub32 page 1 = page - 1 := by
    unfold sub32
    have e : page + U32 - 1 = (page - 1) + U32 := by omega
    rw [e, Nat.add_mod_right, Nat.mod_eq_of_lt (by omega)]
  have h2 : mul32 (page - 1) page_size = (page - 1) * page_size := by
    unfold mul32
    exact Nat.mod_eq_of_lt (by omega)
  have h3 : add32 ((page - 1) * page_size) 1 = (page - 1) * page_size + 1 := by
    unfold add32
    exact Nat.mod_eq_of_lt (by omega)
  rw [h1, h2, h3]

lemma pagination_end_in_range (page page_size total_items : Nat)
    (hmul : page * page_size < U32) (ht : total_items < U32) :
    min (sub32 (add32 (add32 (mul32 (sub32 page 1) page_size) 1) page_size) 1)
        (toU32 total_items)
      = min (page * page_size) total_items := by
  rw [pagination_end_expr_eq]
  unfold mul32 toU32
  rw [Nat.mod_eq_of_lt hmul, Nat.mod_eq_of_lt ht]

/-- C8: the two copies of `create_pagination_info` — in the
order-processing module and in the quote-processing module — return
identical `PaginationInfo` values on every input. -/
theorem C8_pagination_copies_equal (current_page page_size total_items : Nat) :
    orderCreatePaginationInfo current_page page_size total_items
      = quoteCreatePaginationInfo current_page page_size total_items := by
  unfold orderCreatePaginationInfo quoteCreatePaginationInfo
  by_cases h : total_items = 0
  · simp [h]
  · simp [h, pagination_end_expr_eq]

/-- C1 counterexample: at `total_items = 2^32` (with `page = 1`,
`page_size = 1`) the truncating `u64 -> u32` cast makes `end_item = 0`
although the claim demands `min(page*page_size, total_items) = 1`, and
the saturating float-to-`u32` cast makes `total_pages = 2^32 - 1`
although the claim demands `ceil(total_items/page_size) = 2^32`. -/
theorem C1_counterexample :
    (orderCreatePaginationInfo 1 1 4294967296).end_item = 0
    ∧ min (1 * 1) 4294967296 = 1
    ∧ (orderCreatePaginationInfo 1 1 4294967296).total_pages = 4294967295
    ∧ max 1 ((4294967296 + 1 - 1) / 1) = 4294967296 := by
  refine ⟨?_, ?_, ?_, ?_⟩ <;> decide

/-- C1 (amended): for `total_items < 2^32`, `page ≥ 1` and
`1 ≤ page_size ≤ 100` with `page * page_size < 2^32` (no `u32`
overflow or truncation), `create_pagination_info` returns
`total_pages = max(1, ceil(total_items/page_size))`,
`has_prev = page > 1`, `has_next = page < total_pages`,
`start_item = end_item = 0` when `total_items = 0`, otherwise
`start_item = (page-1)*page_size + 1` and
`end_item = min(page*page_size, total_items)`; and `start_item` and
`end_item` are `0` exactly when `total_items = 0`. -/
theorem C1_pagination (page page_size total_items : Nat)
    (hp : 1 ≤ page) (hs1 : 1 ≤ page_size) (_hs2 : page_size ≤ 100)
    (hmul : page * page_size < U32) (ht : total_items < U32) :
    (orderCreatePaginationInfo page page_size total_items).total_pages
        = max 1 ((total_items + page_size - 1) / page_size)
    ∧ (orderCreatePaginationInfo page page_size total_items).has_prev
        = decide (1 < page)
    ∧ (orderCreatePaginationInfo page page_size total_items).has_next
        = decide (page < max 1 ((total_items + page_size - 1) / page_size))
    ∧ (total_items = 0 →
        (orderCreatePaginationInfo page page_size total_items).start_item = 0
        ∧ (orderCreatePaginationInfo page page_size total_items).end_item = 0)
    ∧ (total_items ≠ 0 →
        (orderCreatePaginationInfo page page_size total_items).start_item
            = (page - 1) * page_size + 1
        ∧ (orderCreatePaginationInfo page page_size total_items).end_item
            = min (page * page_size) total_items)
    ∧ (((orderCreatePaginationInfo page page_size total_items).start_item = 0
        ∧ (orderCreatePaginationInfo page page_size total_items).end_item = 0)
       ↔ total_items = 0) := by
  have htp := paginationTotalPages_in_range page_size total_items hs1 ht
  have hstart := pagination_start_in_range page page_size hp hs1 hmul
  have hend := pagination_end_in_range page page_size total_items hmul ht
  unfold orderCreatePaginationInfo
  by_cases h : total_items = 0
  · simp [h, htp.symm, h ▸ htp]
  · refine ⟨htp, rfl, by rw [htp], by intro h0; exact absurd h0 h, ?_, ?_⟩
    · intro _
      simp only [h, if_false]
      exact ⟨hstart, hend⟩
    · constructor
      · intro ⟨h0, _⟩
        simp only [h, if_false] at h0
        rw [hstart] at h0
        omega
      · intro h0
        exact absurd h0 h

/-- Witness for C1: the amended statement instantiated at
`(page, page_size, total_items) = (2, 10, 50)`. -/
theorem C1_pagination_witness :
    (orderCreatePaginationInfo 2 10 50).total_pages = max 1 ((50 + 10 - 1) / 10)
    ∧ (orderCreatePaginationInfo 2 10 50).has_prev = decide (1 < 2)
    ∧ (orderCreatePaginationInfo 2 10 50).has_next
        = decide (2 < max 1 ((50 + 10 - 1) / 10))
    ∧ ((50 : Nat) = 0 → (orderCreatePaginationInfo 2 10 50).start_item = 0
        ∧ (orderCreatePaginationInfo 2 10 50).end_item = 0)
    ∧ ((50 : Nat) ≠ 0 →
        (orderCreatePaginationInfo 2 10 50).start_item = (2 - 1) * 10 + 1
        ∧ (orderCreatePaginationInfo 2 10 50).end_item = min (2 * 10) 50)
    ∧ (((orderCreatePaginationInfo 2 10 50).start_item = 0
        ∧ (orderCreatePaginationInfo 2 10 50).end_item = 0) ↔ (50 : Nat) = 0) :=
  C1_pagination 2 10 50 (by decide) (by decide) (by decide) (by decide) (by decide)

/-! ## `src/auth.rs`: authentication

`verify_password` wraps the external argon2 crate: it returns a plain
`bool`, mapping a malformed stored hash or a failed verification to
`false` (auth.rs lines 52-60).  It is modelled as an abstract total
function `String → String → Bool` passed to `authenticate`. -/

/-- `find_one(doc! { "username": .. })` on the `users` collection:
the first document whose `username` field equals the submitted one. -/
def findOneByUsername (users : List User) (username : String) : Option User :=
  users.find? (fun u => u.username == username)

/-- `MongoAuth::authenticate` (auth.rs lines 104-115), in the non-fault
case: look the user up by username, then check the password; any
failure yields `none`, never an error. -/
def authenticate (verify : String → String → Bool) (users : List User)
    (creds : Credentials) : Option User :=
  match findOneByUsername users creds.username with
  | some u => if verify creds.password u.password_hash then some u else none
  | none => none

lemma findOneByUsername_eq_some_iff (users : List User) (name : String)
    (huniq : List.Pairwise (fun a b : User => a.username ≠ b.username) users)
    (u : User) :
    findOneByUsername users name = some u ↔ (u ∈ users ∧ u.username = name) := by
  induction users with
  | nil => simp [findOneByUsername]
  | cons y ys ih =>
    rcases List.pairwise_cons.mp huniq with ⟨hy, hys⟩
    unfold findOneByUsername at ih ⊢
    by_cases hmatch : y.username = name
    · rw [List.find?_cons_of_pos _ (by simpa using hmatch)]
      constructor
      · rintro h
        injection h with h
        subst h
        exact ⟨List.mem_cons_self y ys, hmatch⟩
      · rintro ⟨hmem, hname⟩
        rcases List.mem_cons.mp hmem with rfl | htail
        · rfl
        · exact absurd (hmatch.trans hname.symm) (hy u htail)
    · rw [List.find?_cons_of_neg _ (by simpa using hmatch)]
      rw [ih hys]
      constructor
      · rintro ⟨hmem, hname⟩
        exact ⟨List.mem_cons_of_mem y hmem, hname⟩
      · rintro ⟨hmem, hname⟩
        rcases List.mem_cons.mp hmem with rfl | htail
        · exact absurd hname hmatch
        · exact ⟨htail, hname⟩

/-- C7 counterexample: with two stored users sharing the username
`alice`, where only the second one's hash verifies, `authenticate`
returns `none` although a user with the submitted username whose hash
verifies exists — the claim's iff fails on such collection contents. -/
theorem C7_counterexample :
    authenticate (fun _ stored => stored == "hash-two")
        [{ id := "64b000000000000000000001", username := "alice",
           password_hash := "hash-one", is_admin := false },
         { id := "64b000000000000000000002", username := "alice",
           password_hash := "hash-two", is_admin := false }]
        { username := "alice", password := "pw", next := none } = none
    ∧ ({ id := "64b000000000000000000002", username := "alice",
         password_hash := "hash-two", is_admin := false } : User)
        ∈ [{ id := "64b000000000000000000001", username := "alice",
             password_hash := "hash-one", is_admin := false },
           ({ id := "64b000000000000000000002", username := "alice",
              password_hash := "hash-two", is_admin := false } : User)]
    ∧ (fun (_ : String) (stored : String) => stored == "hash-two") "pw" "hash-two"
        = true := by
  refine ⟨?_, ?_, ?_⟩ <;> decide

/-- C7 (amended): assuming the stored usernames are pairwise distinct
(the schema's uniqueness invariant), `authenticate` returns `some u`
exactly when `u` is a stored user with the submitted username whose
stored hash verifies against the submitted password, and returns
`none` — never an error — in every other non-fault case, so unknown
username and wrong password are indistinguishable by the result. -/
theorem C7_authenticate (verify : String → String → Bool) (users : List User)
    (creds : Credentials)
    (huniq : List.Pairwise (fun a b : User => a.username ≠ b.username) users) :
    (∀ u : User, authenticate verify users creds = some u ↔
        (u ∈ users ∧ u.username = creds.username
          ∧ verify creds.password u.password_hash = true))
    ∧ (authenticate verify users creds = none ↔
        ¬ ∃ u : User, u ∈ users ∧ u.username = creds.username
            ∧ verify creds.password u.password_hash = true) := by
  have key : ∀ u : User, authenticate verify users creds = some u ↔
      (u ∈ users ∧ u.username = creds.username
        ∧ verify creds.password u.password_hash = true) := by
    intro u
    unfold authenticate
    cases hfind : findOneByUsername users creds.username with
    | none =>
      simp only [reduceCtorEq, false_iff]
      rintro ⟨hmem, hname, _⟩
      have h1 := (findOneByUsername_eq_some_iff users creds.username huniq u).mpr
        ⟨hmem, hname⟩
      rw [hfind] at h1
      cases h1
    | some w =>
      have hw := (findOneByUsername_eq_some_iff users creds.username huniq w).mp hfind
      by_cases hv : verify creds.password w.password_hash = true
      · simp only [hv, if_true, Option.some.injEq]
        constructor
        · rintro rfl
          exact ⟨hw.1, hw.2, hv⟩
        · rintro ⟨hmem, hname, _⟩
          have h1 := (findOneByUsername_eq_some_iff users creds.username huniq u).mpr
            ⟨hmem, hname⟩
          rw [hfind] at h1
          injection h1
      · simp only [hv, if_false, reduceCtorEq, false_iff]
        rintro ⟨hmem, hname, hver⟩
        have h1 := (findOneByUsername_eq_some_iff users creds.username huniq u).mpr
          ⟨hmem, hname⟩
        rw [hfind] at h1
        injection h1 with h1
        subst h1
        exact hv hver
  refine ⟨key, ?_, ?_⟩
  · rintro hnone ⟨u, hmem, hname, hver⟩
    have h1 := (key u).mpr ⟨hmem, hname, hver⟩
    rw [hnone] at h1
    cases h1
  · intro hnotex
    cases hauth : authenticate verify users creds with
    | none => rfl
    | some u =>
      rcases (key u).mp hauth with ⟨hmem, hname, hver⟩
      exact absurd ⟨u, hmem, hname, hver⟩ hnotex

/-- Witness for C7: a one-user collection where the credentials match;
`authenticate` returns that user. -/
theorem C7_authenticate_witness :
    authenticate (fun p stored => p == "s3cret" && stored == "good-hash")
        [{ id := "64b00000000000000000000a", username := "alice",
           password_hash := "good-hash", is_admin := true }]
        { username := "alice", password := "s3cret", next := none }
      = some { id := "64b00000000000000000000a", username := "alice",
               password_hash := "good-hash", is_admin := true } :=
  ((C7_authenticate (fun p stored => p == "s3cret" && stored == "good-hash")
      [{ id := "64b00000000000000000000a", username := "alice",
         password_hash := "good-hash", is_admin := true }]
      { username := "alice", password := "s3cret", next := none }
      (by decide)).1 _).mpr ⟨by decide, by decide, by decide⟩

lemma validate_redirect_url_iff (s : String) :
    validate_redirect_url s = true ↔
      (strStartsWith s "/" = true ∧ strStartsWith s "//" = false) := by
  unfold validate_redirect_url
  simp [Bool.and_eq_true, Bool.not_eq_true']

/-- C6: `get_safe_redirect_url` returns the supplied string exactly when
it begins with `/` and not with `//`; every other value — an absent
parameter, `//evil.com`, `http://evil.com` — yields `/products`. -/
theorem C6_redirect :
    (∀ s : String, get_safe_redirect_url (some s) = s ↔
        (strStartsWith s "/" = true ∧ strStartsWith s "//" = false))
    ∧ (∀ s : String,
        ¬ (strStartsWith s "/" = true ∧ strStartsWith s "//" = false) →
        get_safe_redirect_url (some s) = "/products")
    ∧ get_safe_redirect_url none = "/products"
    ∧ get_safe_redirect_url (some "//evil.com") = "/products"
    ∧ get_safe_redirect_url (some "http://evil.com") = "/products" := by
  refine ⟨?_, ?_, rfl, by decide, by decide⟩
  · intro s
    cases hval : validate_redirect_url s
    · simp only [get_safe_redirect_url, hval]
      rw [if_neg (by simp)]
      constructor
      · intro heq
        have hP : validate_redirect_url "/products" = true := by decide
        rw [heq] at hP
        rw [hP] at hval
        cases hval
      · intro hok
        have h1 := (validate_redirect_url_iff s).mpr hok
        rw [h1] at hval
        cases hval
    · simp only [get_safe_redirect_url, hval]
      rw [if_pos trivial]
      simpa using (validate_redirect_url_iff s).mp hval
  · intro s hns
    have hvb : validate_redirect_url s = false := by
      cases hval : validate_redirect_url s
      · rfl
      · exact absurd ((validate_redirect_url_iff s).mp hval) hns
    simp only [get_safe_redirect_url, hvb]
    rw [if_neg (by simp)]

/-- Witness for C6: the second conjunct applied at the concrete
rejected value `http://evil.com`. -/
theorem C6_redirect_witness :
    get_safe_redirect_url (some "http://evil.com") = "/products" :=
  C6_redirect.2.1 "http://evil.com" (by decide)

/-! ## `src/handlers/order_processing.rs`: listing -/

/-- `DEFAULT_PAGE_SIZE` (order_processing.rs line 26). -/
def DEFAULT_PAGE_SIZE : Nat := 10

/-- `MAX_PAGE_SIZE` (order_processing.rs line 27). -/
def MAX_PAGE_SIZE : Nat := 100

/-- The `main_filter` document (order_processing.rs lines 66-70) as a
predicate: everything when showing completed, else
`status ∈ {pending, failed, cancelled}`. -/
def mainFilterPred (show_completed : Bool) (o : Order) : Bool :=
  if show_completed then true
  else (["pending", "failed", "cancelled"] : List String).contains o.status

/-- The `completed_filter` document (order_processing.rs lines 113-117). -/
def completedFilterPred (show_completed : Bool) (o : Order) : Bool :=
  if show_completed then true
  else (["paid", "processing", "shipped"] : List String).contains o.status

/-- One step of the stable insertion realizing
`all_orders.sort_by(|a, b| b.created_at.cmp(&a.created_at))`:
the inserted element goes in front of the first element whose
`created_at` is `≤` its own (so an element equal on the key stays after
the earlier-positioned one — stability). -/
def insertByCreatedDesc (x : Order) : List Order → List Order
  | [] => [x]
  | y :: ys =>
    if strLe y.created_at x.created_at then x :: y :: ys
    else y :: insertByCreatedDesc x ys

/-- `Vec::sort_by` with comparator `b.created_at.cmp(&a.created_at)`
(order_processing.rs line 151): Rust's stable sort, which is
extensionally the stable insertion sort for this total comparator. -/
def sortByCreatedDesc (l : List Order) : List Order :=
  l.foldr insertByCreatedDesc []

/-- One collection read in `list_orders`: the outcome of `find`
(phase 1) and of draining the cursor with `try_collect` (phase 2), plus
the filtered documents the read would deliver when both phases succeed.
The diagnostic raw-document re-reads (order_processing.rs lines 75-89
and 122-136) share the same per-collection fault state and only produce
log output — in particular the `unwrap` on line 79 runs only after the
typed `find` on line 73 succeeded — so they are not modelled. -/
structure OrderCollectionRead where
  findErr : Option String
  collectErr : Option String
  docs : List Order
deriving DecidableEq, Repr

/-- `OrderProcessingTemplate` (models.rs), with `orders` holding the
paginated `Order` list that the code then maps elementwise through the
pure projection `convert_to_display`. -/
structure OrderProcessingTemplateModel where
  orders : List Order
  pagination : PaginationInfo
  show_completed : Bool
  success_message : String
  error_message : String
  user_state : UserState
deriving DecidableEq, Repr

/-- The three response shapes of `list_orders`. -/
inductive ListOrdersResponse where
  | redirectLogin
  | forbidden
  | page (t : OrderProcessingTemplateModel)
deriving DecidableEq, Repr

/-- Projection: the rendered order list, when the response is a page. -/
def ListOrdersResponse.pageOrders : ListOrdersResponse → Option (List Order)
  | .page t => some t.orders
  | _ => none

/-- Projection: the rendered error message, when the response is a page. -/
def ListOrdersResponse.pageErrorMessage : ListOrdersResponse → Option String
  | .page t => some t.error_message
  | _ => none

/-- `list_orders` (order_processing.rs lines 30-180).  The stored
collection contents and the per-phase fault state of the two reads are
the `OrderCollectionRead` inputs; `find` applies the filter document,
a failed `try_collect` is replaced by the default empty vector
(`unwrap_or_default`, lines 92 and 138), and any fault on the
completed-orders read is swallowed (lines 145-147). -/
def list_orders (user : UserState) (params : OrderQueryParams)
    (active completed : OrderCollectionRead) : ListOrdersResponse :=
  if !user.is_authenticated then .redirectLogin
  else if !user.is_admin then .forbidden
  else
    let show_completed := (params.show_completed.getD "false") == "true"
    let page := max (params.page.getD 1) 1
    let page_size := min (params.page_size.getD DEFAULT_PAGE_SIZE) MAX_PAGE_SIZE
    let skip := mul32 (page - 1) page_size
    match active.findErr with
    | some e =>
      .page { orders := []
              pagination := orderCreatePaginationInfo 1 page_size 0
              show_completed := show_completed
              success_message := ""
              error_message := "Database error fetching orders: " ++ e
              user_state := user }
    | none =>
      let activeOrders :=
        match active.collectErr with
        | some _ => []
        | none => active.docs.filter (mainFilterPred show_completed)
      let completedOrders :=
        match completed.findErr with
        | some _ => []
        | none =>
          match completed.collectErr with
          | some _ => []
          | none => completed.docs.filter (completedFilterPred show_completed)
      let all_orders := activeOrders ++ completedOrders
      let sorted := sortByCreatedDesc all_orders
      let total_count := sorted.length
      let paginated := (sorted.drop skip).take page_size
      .page { orders := paginated
              pagination := orderCreatePaginationInfo page page_size total_count
              show_completed := show_completed
              success_message := ""
              error_message := ""
              user_state := user }

/-! ## `src/handlers/order_processing.rs`: status update -/

/-- The `valid_statuses` list (order_processing.rs line 202). -/
def VALID_ORDER_STATUSES : List String :=
  ["paid", "processing", "shipped", "completed", "cancelled"]

/-- One hex digit, as accepted by `ObjectId::parse_str`. -/
def isHexDigit (c : Char) : Bool :=
  c.isDigit || (97 ≤ c.toNat && c.toNat ≤ 102) || (65 ≤ c.toNat && c.toNat ≤ 70)

/-- `ObjectId::parse_str`: 24 hex characters, case-insensitive; the
parsed id is represented by its canonical lowercase hex form. -/
def parseObjectId (s : String) : Option String :=
  if s.toList.length == 24 && s.toList.all isHexDigit then
    some (String.mk (s.toList.map Char.toLower))
  else none

/-- The `$set` document of the status update (order_processing.rs
lines 229-234): new status plus the `updated_at` timestamp. -/
def applyStatusUpdate (status now : String) (o : Order) : Order :=
  { o with status := status, updated_at := now }

/-- `update_one` by `_id` on an order collection: rewrites the first
matching document, returning the new contents and `matched_count`. -/
def updateOneOrder (coll : List Order) (oid status now : String) :
    List Order × Nat :=
  match coll with
  | [] => ([], 0)
  | o :: rest =>
    if o.id == oid then (applyStatusUpdate status now o :: rest, 1)
    else
      let r := updateOneOrder rest oid status now
      (o :: r.1, r.2)

/-- `update_order_status` (order_processing.rs lines 183-284) in the
fault-free store case, returning the JSON response together with the
contents of the two collections afterwards. -/
def update_order_status (user : UserState) (now : String)
    (form : UpdateOrderStatusForm) (active completed : List Order) :
    OrderOperationResponse × List Order × List Order :=
  if !user.is_admin then
    ({ success := false, message := "Access denied", order_id := none },
     active, completed)
  else if !(VALID_ORDER_STATUSES.contains form.status) then
    ({ success := false, message := "Invalid status", order_id := none },
     active, completed)
  else
    match parseObjectId form.order_id with
    | none =>
      ({ success := false, message := "Invalid order ID", order_id := none },
       active, completed)
    | some oid =>
      if (updateOneOrder active oid form.status now).2 > 0 then
        ({ success := true, message := "Order status updated to " ++ form.status,
           order_id := some form.order_id },
         (updateOneOrder active oid form.status now).1, completed)
      else if (updateOneOrder completed oid form.status now).2 > 0 then
        ({ success := true, message := "Order status updated to " ++ form.status,
           order_id := some form.order_id },
         (updateOneOrder active oid form.status now).1,
         (updateOneOrder completed oid form.status now).1)
      else
        ({ success := false, message := "Order not found in either collection",
           order_id := none },
         (updateOneOrder active oid form.status now).1,
         (updateOneOrder completed oid form.status now).1)

/-! ## Lemmas about the descending stable sort -/

lemma lexLe_total (a b : List Char) : lexLe a b = true ∨ lexLe b a = true := by
  induction a generalizing b with
  | nil => left; rfl
  | cons x xs ih =>
    cases b with
    | nil => right; rfl
    | cons y ys =>
      rcases Nat.lt_trichotomy x.toNat y.toNat with h | h | h
      · left
        simp [lexLe, h]
      · have h1 : ¬ x.toNat < y.toNat := by omega
        have h2 : ¬ y.toNat < x.toNat := by omega
        rcases ih ys with hc | hc
        · left
          simp [lexLe, h1, h2, hc]
        · right
          simp [lexLe, h1, h2, hc]
      · right
        simp [lexLe, h]

lemma lexLe_trans (a b c : List Char) (hab : lexLe a b = true)
    (hbc : lexLe b c = true) : lexLe a c = true := by
  induction a generalizing b c with
  | nil => rfl
  | cons x xs ih =>
    cases b with
    | nil => simp [lexLe] at hab
    | cons y ys =>
      cases c with
      | nil => simp [lexLe] at hbc
      | cons z zs =>
        simp only [lexLe] at hab hbc ⊢
        by_cases hxy : x.toNat < y.toNat
        · by_cases hyz : y.toNat < z.toNat
          · simp [show x.toNat < z.toNat by omega]
          · by_cases hzy : z.toNat < y.toNat
            · simp [hyz, hzy] at hbc
            · simp [show x.toNat < z.toNat by omega]
        · by_cases hyx : y.toNat < x.toNat
          · simp [hxy, hyx] at hab
          · by_cases hyz : y.toNat < z.toNat
            · simp [show x.toNat < z.toNat by omega]
            · by_cases hzy : z.toNat < y.toNat
              · simp [hyz, hzy] at hbc
              · have hxz1 : ¬ x.toNat < z.toNat := by omega
                have hxz2 : ¬ z.toNat < x.toNat := by omega
                rw [if_neg hxy, if_neg hyx] at hab
                rw [if_neg hyz, if_neg hzy] at hbc
                rw [if_neg hxz1, if_neg hxz2]
                exact ih ys zs hab hbc

lemma strLe_total (a b : String) : strLe a b = true ∨ strLe b a = true :=
  lexLe_total a.toList b.toList

lemma strLe_trans (a b c : String) (hab : strLe a b = true)
    (hbc : strLe b c = true) : strLe a c = true :=
  lexLe_trans a.toList b.toList c.toList hab hbc

/-- The precedence relation of the descending sort: `a` may appear
before `b` when `b.created_at ≤ a.created_at`. -/
def createdGe (a b : Order) : Prop := strLe b.created_at a.created_at = true

lemma insertByCreatedDesc_perm (x : Order) (l : List Order) :
    List.Perm (insertByCreatedDesc x l) (x :: l) := by
  induction l with
  | nil => exact List.Perm.refl _
  | cons y ys ih =>
    unfold insertByCreatedDesc
    by_cases h : strLe y.created_at x.created_at = true
    · rw [if_pos h]
    · rw [if_neg h]
      exact (ih.cons y).trans (List.Perm.swap x y ys)

lemma sortByCreatedDesc_perm (l : List Order) :
    List.Perm (sortByCreatedDesc l) l := by
  induction l with
  | nil => exact List.Perm.refl _
  | cons x xs ih =>
    unfold sortByCreatedDesc
    simp only [List.foldr_cons]
    exact (insertByCreatedDesc_perm x _).trans (ih.cons x)

lemma mem_insertByCreatedDesc {z x : Order} {l : List Order}
    (h : z ∈ insertByCreatedDesc x l) : z = x ∨ z ∈ l := by
  have := (insertByCreatedDesc_perm x l).mem_iff.mp h
  simpa using this

lemma insertByCreatedDesc_pairwise (x : Order) (l : List Order)
    (h : l.Pairwise createdGe) :
    (insertByCreatedDesc x l).Pairwise createdGe := by
  induction l with
  | nil => simp [insertByCreatedDesc]
  | cons y ys ih =>
    rcases List.pairwise_cons.mp h with ⟨hy, hys⟩
    unfold insertByCreatedDesc
    by_cases hc : strLe y.created_at x.created_at = true
    · rw [if_pos hc]
      refine List.pairwise_cons.mpr ⟨?_, h⟩
      intro z hz
      rcases List.mem_cons.mp hz with rfl | hz2
      · exact hc
      · exact strLe_trans z.created_at y.created_at x.created_at (hy z hz2) hc
    · rw [if_neg hc]
      refine List.pairwise_cons.mpr ⟨?_, ih hys⟩
      intro z hz
      rcases mem_insertByCreatedDesc hz with rfl | hz2
      · rcases strLe_total y.created_at z.created_at with ht | ht
        · exact absurd ht hc
        · exact ht
      · exact hy z hz2

lemma sortByCreatedDesc_pairwise (l : List Order) :
    (sortByCreatedDesc l).Pairwise createdGe := by
  induction l with
  | nil => simp [sortByCreatedDesc]
  | cons x xs ih =>
    unfold sortByCreatedDesc
    simp only [List.foldr_cons]
    exact insertByCreatedDesc_pairwise x _ ih

lemma window_pairwise (l : List Order) (m n : Nat) :
    ((sortByCreatedDesc l).drop m).take n |>.Pairwise createdGe := by
  refine List.Pairwise.sublist ?_ (sortByCreatedDesc_pairwise l)
  exact (List.take_sublist _ _).trans (List.drop_sublist _ _)

/-! ## Lemmas about `updateOneOrder` -/

lemma updateOneOrder_not_matched (coll : List Order) (oid status now : String)
    (h : ∀ o ∈ coll, o.id ≠ oid) :
    updateOneOrder coll oid status now = (coll, 0) := by
  induction coll with
  | nil => rfl
  | cons o rest ih =>
    unfold updateOneOrder
    rw [if_neg (by simp [h o (List.mem_cons_self o rest)])]
    rw [ih (fun x hx => h x (List.mem_cons_of_mem o hx))]

lemma updateOneOrder_matched_pos (coll : List Order) (oid status now : String)
    (h : ∃ o ∈ coll, o.id = oid) :
    0 < (updateOneOrder coll oid status now).2 := by
  induction coll with
  | nil => simp at h
  | cons o rest ih =>
    unfold updateOneOrder
    by_cases hid : o.id = oid
    · rw [if_pos (by simp [hid])]
      exact Nat.zero_lt_one
    · rw [if_neg (by simp [hid])]
      rcases h with ⟨w, hw, hwid⟩
      rcases List.mem_cons.mp hw with rfl | htail
      · exact absurd hwid hid
      · exact ih ⟨w, htail, hwid⟩

/-! ## Shared concrete sample data -/

/-- A fixed shipping address used by the concrete examples. -/
def sampleAddress : ShippingAddress :=
  { line1 := "1 Main St", line2 := none, city := "Springfield",
    postcode := "SP1 1AA", country := "GB" }

/-- A concrete order with the given id, reference, status and creation
timestamp. -/
def sampleOrder (oid ref status created : String) : Order :=
  { id := oid, order_reference := ref, customer_name := "John Doe",
    customer_email := "john@example.com", shipping_address := sampleAddress,
    items := [], subtotal := 40, shipping_cost := 5, total := 45,
    currency := "GBP", status := status, created_at := created,
    updated_at := created }

/-- An authenticated admin session's `UserState`. -/
def adminState : UserState := UserState.new true "admin" true

/-! ## Filter-predicate characterizations -/

lemma mainFilterPred_false_eq (o : Order) :
    mainFilterPred false o
      = decide (o.status = "pending" ∨ o.status = "failed"
          ∨ o.status = "cancelled") := by
  unfold mainFilterPred
  rw [if_neg (by simp)]
  by_cases h1 : o.status = "pending" <;> by_cases h2 : o.status = "failed" <;>
    by_cases h3 : o.status = "cancelled" <;> simp [h1, h2, h3]

lemma completedFilterPred_false_eq (o : Order) :
    completedFilterPred false o
      = decide (o.status = "paid" ∨ o.status = "processing"
          ∨ o.status = "shipped") := by
  unfold completedFilterPred
  rw [if_neg (by simp)]
  by_cases h1 : o.status = "paid" <;> by_cases h2 : o.status = "processing" <;>
    by_cases h3 : o.status = "shipped" <;> simp [h1, h2, h3]

lemma mainFilterPred_true (o : Order) : mainFilterPred true o = true := rfl

lemma completedFilterPred_true (o : Order) : completedFilterPred true o = true := rfl

/-- A concrete pending order used in the order-listing examples. -/
def c2Order : Order :=
  sampleOrder "64a000000000000000000021" "ORD-C" "pending" "2025-01-03T10:00:00Z"

/-- C2 counterexample: with effective `page = 2147483649` and
`page_size = 2`, the claimed window `skip((page-1)*page_size)` would
drop `2^32` elements (an empty result on a one-order store), but the
code computes the skip in wrapping `u32` arithmetic, where
`(page-1)*page_size` wraps to `0`, and returns the order. -/
theorem C2_counterexample :
    (list_orders adminState
        { page := some 2147483649, show_completed := some "false", page_size := some 2 }
        { findErr := none, collectErr := none, docs := [c2Order] }
        { findErr := none, collectErr := none, docs := [] }).pageOrders
      = some [c2Order]
    ∧ (max (2147483649 : Nat) 1 - 1) * min (2 : Nat) 100 = 4294967296
    ∧ ((sortByCreatedDesc ([c2Order].filter (mainFilterPred false)
          ++ [])).drop 4294967296).take 2 = [] := by
  refine ⟨by decide, by decide, ?_⟩
  rw [List.drop_eq_nil_of_le (by decide)]
  rfl

/-- C2 (amended): for every pair of collection contents and every
request in which the effective `(page-1)*page_size` does not overflow
`u32`, the fault-free order listing returns exactly the window
`skip((page-1)*page_size).take(page_size)` of the merged list, sorted by
`created_at` descending: with `show_completed` not `"true"`, the
active-collection orders with status in {pending, failed, cancelled}
together with the completed-collection orders with status in
{paid, processing, shipped}; with `show_completed = "true"`, every
order of both collections unfiltered; and the returned list is sorted
by `created_at` descending. -/
theorem C2_merge (user : UserState) (params : OrderQueryParams)
    (activeDocs completedDocs : List Order)
    (hauth : user.is_authenticated = true) (hadmin : user.is_admin = true)
    (hskip : (max (params.page.getD 1) 1 - 1)
        * min (params.page_size.getD 10) 100 < U32) :
    ((params.show_completed.getD "false") ≠ "true" →
      (list_orders user params
          { findErr := none, collectErr := none, docs := activeDocs }
          { findErr := none, collectErr := none, docs := completedDocs }).pageOrders
        = some (((sortByCreatedDesc
            (activeDocs.filter (fun o => decide (o.status = "pending"
                ∨ o.status = "failed" ∨ o.status = "cancelled"))
             ++ completedDocs.filter (fun o => decide (o.status = "paid"
                ∨ o.status = "processing" ∨ o.status = "shipped")))).drop
            ((max (params.page.getD 1) 1 - 1) * min (params.page_size.getD 10) 100)).take
            (min (params.page_size.getD 10) 100)))
    ∧ ((params.show_completed.getD "false") = "true" →
      (list_orders user params
          { findErr := none, collectErr := none, docs := activeDocs }
          { findErr := none, collectErr := none, docs := completedDocs }).pageOrders
        = some (((sortByCreatedDesc (activeDocs ++ completedDocs)).drop
            ((max (params.page.getD 1) 1 - 1) * min (params.page_size.getD 10) 100)).take
            (min (params.page_size.getD 10) 100)))
    ∧ (∀ res : List Order,
        (list_orders user params
          { findErr := none, collectErr := none, docs := activeDocs }
          { findErr := none, collectErr := none, docs := completedDocs }).pageOrders
          = some res → res.Pairwise createdGe) := by
  have hmul : mul32 (max (params.page.getD 1) 1 - 1) (min (params.page_size.getD 10) 100)
      = (max (params.page.getD 1) 1 - 1) * min (params.page_size.getD 10) 100 := by
    unfold mul32
    exact Nat.mod_eq_of_lt hskip
  refine ⟨?_, ?_, ?_⟩
  · intro hsc
    have hscb : ((params.show_completed.getD "false") == "true") = false := by
      simpa using hsc
    unfold list_orders
    simp only [hauth, hadmin, Bool.not_true, Bool.false_eq_true, if_false, hscb,
      DEFAULT_PAGE_SIZE, MAX_PAGE_SIZE, ListOrdersResponse.pageOrders, hmul,
      Option.some.injEq]
    rw [List.filter_congr (fun o _ => mainFilterPred_false_eq o),
      List.filter_congr (fun o _ => completedFilterPred_false_eq o)]
  · intro hsc
    have hscb : ((params.show_completed.getD "false") == "true") = true := by
      simpa using hsc
    unfold list_orders
    simp only [hauth, hadmin, Bool.not_true, Bool.false_eq_true, if_false, hscb,
      DEFAULT_PAGE_SIZE, MAX_PAGE_SIZE, ListOrdersResponse.pageOrders, hmul,
      Option.some.injEq]
    rw [List.filter_congr (fun o _ => mainFilterPred_true o),
      List.filter_congr (fun o _ => completedFilterPred_true o)]
    simp [List.filter_true]
  · intro res hres
    unfold list_orders at hres
    simp only [hauth, hadmin, Bool.not_true, Bool.false_eq_true, if_false,
      ListOrdersResponse.pageOrders, Option.some.injEq] at hres
    rw [← hres]
    exact window_pairwise _ _ _

/-- Witness for C2: one pending active order and one paid completed
order; with `show_completed` defaulted off both pass their filters and
the first page returns them, newest first. -/
theorem C2_merge_witness :
    (list_orders adminState { page := none, show_completed := none, page_size := none }
        { findErr := none, collectErr := none,
          docs := [sampleOrder "64a000000000000000000031" "ORD-D" "pending"
              "2025-01-01T10:00:00Z"] }
        { findErr := none, collectErr := none,
          docs := [sampleOrder "64a000000000000000000032" "ORD-E" "paid"
              "2025-01-02T10:00:00Z"] }).pageOrders
      = some [sampleOrder "64a000000000000000000032" "ORD-E" "paid"
              "2025-01-02T10:00:00Z",
              sampleOrder "64a000000000000000000031" "ORD-D" "pending"
              "2025-01-01T10:00:00Z"] := by
  have h := (C2_merge adminState
      { page := none, show_completed := none, page_size := none }
      [sampleOrder "64a000000000000000000031" "ORD-D" "pending" "2025-01-01T10:00:00Z"]
      [sampleOrder "64a000000000000000000032" "ORD-E" "paid" "2025-01-02T10:00:00Z"]
      (by decide) (by decide) (by decide)).1 (by decide)
  rw [h]
  decide

/-- A concrete active-collection order for the fault-handling examples. -/
def c5ActiveOrder : Order :=
  sampleOrder "64a000000000000000000011" "ORD-A" "pending" "2025-01-01T10:00:00Z"

/-- A concrete completed-collection order for the fault-handling examples. -/
def c5CompletedOrder : Order :=
  sampleOrder "64a000000000000000000012" "ORD-B" "paid" "2025-01-02T10:00:00Z"

/-- C5 counterexample: a storage fault while draining the
active-collection cursor (`try_collect`) does not abort the listing —
`unwrap_or_default()` silently replaces the active orders by the empty
vector and the page renders the completed-collection order with no
error message, contradicting the claim that any fault reading the
active collection aborts with an error page. -/
theorem C5_counterexample :
    list_orders adminState { page := none, show_completed := none, page_size := none }
        { findErr := none, collectErr := some "cursor fault", docs := [c5ActiveOrder] }
        { findErr := none, collectErr := none, docs := [c5CompletedOrder] }
      = .page { orders := [c5CompletedOrder],
                pagination := orderCreatePaginationInfo 1 10 1,
                show_completed := false,
                success_message := "",
                error_message := "",
                user_state := adminState } := by
  decide

/-- C5 (amended): a fault in the `find` phase of the active-collection
read aborts the listing with an error page (empty order list, error
message); a fault while draining the active cursor is swallowed and the
active collection contributes nothing; any fault on the
completed-collection read (either phase) is swallowed and the listing
proceeds with the remaining results. -/
theorem C5_fault_handling (user : UserState) (params : OrderQueryParams)
    (activeDocs completedDocs : List Order)
    (aCollectErr cFindErr cCollectErr : Option String) (e : String)
    (hauth : user.is_authenticated = true) (hadmin : user.is_admin = true) :
    (list_orders user params
        { findErr := some e, collectErr := aCollectErr, docs := activeDocs }
        { findErr := cFindErr, collectErr := cCollectErr, docs := completedDocs }
      = .page { orders := [],
                pagination := orderCreatePaginationInfo 1
                    (min (params.page_size.getD 10) 100) 0,
                show_completed := ((params.show_completed.getD "false") == "true"),
                success_message := "",
                error_message := "Database error fetching orders: " ++ e,
                user_state := user })
    ∧ (list_orders user params
        { findErr := none, collectErr := aCollectErr, docs := activeDocs }
        { findErr := cFindErr, collectErr := cCollectErr, docs := completedDocs }).pageErrorMessage
      = some ""
    ∧ (list_orders user params
        { findErr := none, collectErr := aCollectErr, docs := activeDocs }
        { findErr := cFindErr, collectErr := cCollectErr, docs := completedDocs }).pageOrders
      = some (((sortByCreatedDesc
          ((if aCollectErr.isSome then [] else activeDocs.filter
              (mainFilterPred ((params.show_completed.getD "false") == "true")))
           ++ (if cFindErr.isSome || cCollectErr.isSome then [] else
              completedDocs.filter
                (completedFilterPred ((params.show_completed.getD "false") == "true"))))).drop
          (mul32 (max (params.page.getD 1) 1 - 1)
            (min (params.page_size.getD 10) 100))).take
          (min (params.page_size.getD 10) 100)) := by
  refine ⟨?_, ?_, ?_⟩
  · unfold list_orders
    simp [hauth, hadmin, DEFAULT_PAGE_SIZE, MAX_PAGE_SIZE]
  · unfold list_orders
    cases cFindErr <;> cases cCollectErr <;> cases aCollectErr <;>
      simp [hauth, hadmin, ListOrdersResponse.pageErrorMessage]
  · unfold list_orders
    cases cFindErr <;> cases cCollectErr <;> cases aCollectErr <;>
      simp [hauth, hadmin, ListOrdersResponse.pageOrders,
        DEFAULT_PAGE_SIZE, MAX_PAGE_SIZE]

/-- Witness for C5: a `find` fault on the active collection with one
completed order stored renders the error page with an empty list. -/
theorem C5_fault_handling_witness :
    list_orders adminState { page := none, show_completed := none, page_size := none }
        { findErr := some "boom", collectErr := none, docs := [c5ActiveOrder] }
        { findErr := none, collectErr := none, docs := [c5CompletedOrder] }
      = .page { orders := [],
                pagination := orderCreatePaginationInfo 1 (min ((10 : Nat)) 100) 0,
                show_completed := ((("false" : String)) == "true"),
                success_message := "",
                error_message := "Database error fetching orders: " ++ "boom",
                user_state := adminState } :=
  (C5_fault_handling adminState
      { page := none, show_completed := none, page_size := none }
      [c5ActiveOrder] [c5CompletedOrder] none none none "boom"
      (by decide) (by decide)).1

/-- C3: an invalid target status is rejected before any write; for a
valid status (admin session, well-formed id) the active collection is
tried first — a match there leaves the completed collection untouched —
the completed collection is tried only when the active collection
matched nothing, an id present only in the completed collection
succeeds through that fallback, and when neither collection matches the
response is a `success:false` not-found with both collections
unchanged. -/
theorem C3_status_update (user : UserState) (now : String)
    (form : UpdateOrderStatusForm) (active completed : List Order) :
    ((VALID_ORDER_STATUSES.contains form.status) = false →
      update_order_status user now form active completed
        = ((if user.is_admin = true then
              { success := false, message := "Invalid status", order_id := none }
            else
              { success := false, message := "Access denied", order_id := none }),
           active, completed))
    ∧ (user.is_admin = true →
       (VALID_ORDER_STATUSES.contains form.status) = true →
       ∀ oid : String, parseObjectId form.order_id = some oid →
        (((∃ o ∈ active, o.id = oid) →
            (update_order_status user now form active completed).2.2 = completed
            ∧ (update_order_status user now form active completed).1.success = true)
         ∧ ((∀ o ∈ active, o.id ≠ oid) →
              (update_order_status user now form active completed).2.1 = active
              ∧ ((∃ o ∈ completed, o.id = oid) →
                  (update_order_status user now form active completed).1.success = true)
              ∧ ((∀ o ∈ completed, o.id ≠ oid) →
                  update_order_status user now form active completed
                    = ({ success := false,
                         message := "Order not found in either collection",
                         order_id := none }, active, completed))))) := by
  constructor
  · intro hinvalid
    unfold update_order_status
    cases hadm : user.is_admin
    · rfl
    · rw [hinvalid]
      rfl
  · intro hadmin hvalid oid hparse
    unfold update_order_status
    simp only [hadmin, hvalid, Bool.not_true, Bool.false_eq_true, if_false, hparse]
    refine ⟨?_, ?_⟩
    · intro hex
      have hpos := updateOneOrder_matched_pos active oid form.status now hex
      rw [if_pos hpos]
      exact ⟨rfl, rfl⟩
    · intro hno
      have hupd := updateOneOrder_not_matched active oid form.status now hno
      rw [hupd]
      simp only [gt_iff_lt, Nat.lt_irrefl, if_false]
      refine ⟨?_, ?_, ?_⟩
      · split
        · rfl
        · rfl
      · intro hex
        have hpos := updateOneOrder_matched_pos completed oid form.status now hex
        rw [if_pos hpos]
      · intro hnoc
        have hupdc := updateOneOrder_not_matched completed oid form.status now hnoc
        rw [hupdc]
        simp

/-- A paid order present only in the completed collection. -/
def c3Order : Order :=
  sampleOrder "64a000000000000000000002" "ORD-2" "paid" "2025-01-01T12:00:00Z"

/-- The status-update form targeting `c3Order`. -/
def c3Form : UpdateOrderStatusForm :=
  { order_id := "64a000000000000000000002", status := "shipped" }

/-- Witness for C3: an update against an id present only in the
completed collection succeeds through the fallback, leaving the active
collection unchanged. -/
theorem C3_status_update_witness :
    (update_order_status adminState "2025-02-02T00:00:00Z" c3Form [] [c3Order]).1.success
        = true
    ∧ (update_order_status adminState "2025-02-02T00:00:00Z" c3Form [] [c3Order]).2.1
        = [] := by
  have h := (C3_status_update adminState "2025-02-02T00:00:00Z" c3Form [] [c3Order]).2
      (by decide) (by decide) "64a000000000000000000002" (by decide)
  have hno : ∀ o ∈ ([] : List Order), o.id ≠ "64a000000000000000000002" := by
    simp
  refine ⟨(h.2 hno).2.1 ⟨c3Order, List.mem_singleton.mpr rfl, rfl⟩, (h.2 hno).1⟩

/-! ## `src/handlers/product_management.rs`: parsing helpers

`str::parse::<f64>` accepts `Sign? (inf | infinity | nan | Number)`
(case-insensitive keywords) with
`Number ::= Digit+ (. Digit*)? Exp? | . Digit+ Exp?` and
`Exp ::= (e|E) Sign? Digit+`.  The parsed value is modelled exactly as
a decimal `mantissa * 10^exponent` (see the header comment on the
fidelity of this model). -/

/-- Value of a digit string (most significant first). -/
def digitsToNat (l : List Char) : Nat :=
  l.foldl (fun acc c => acc * 10 + (c.toNat - 48)) 0

/-- An `f64` as produced by `str::parse::<f64>`: an exact decimal
value `m * 10^e`, an infinity, or NaN. -/
inductive F64Val where
  | num (m : Int) (e : Int)
  | inf
  | negInf
  | nan
deriving DecidableEq, Repr

/-- `10^n` over `Int`. -/
def tenPow : Nat → Int
  | 0 => 1
  | n + 1 => 10 * tenPow n

/-- Strip one optional leading sign; `true` means negative. -/
def splitSign : List Char → Bool × List Char
  | '+' :: r => (false, r)
  | '-' :: r => (true, r)
  | r => (false, r)

/-- Parse the optional exponent suffix; `some k` is the exponent value,
`none` a malformed remainder. -/
def parseExpPart (cs : List Char) : Option Int :=
  match cs with
  | [] => some 0
  | c :: rest =>
    if c = 'e' ∨ c = 'E' then
      let sr := splitSign rest
      let eDigits := sr.2.takeWhile Char.isDigit
      let rest3 := sr.2.dropWhile Char.isDigit
      if eDigits.isEmpty || !rest3.isEmpty then none
      else if sr.1 then some (-(digitsToNat eDigits : Int))
      else some ((digitsToNat eDigits : Int))
    else none

/-- Parse an unsigned decimal number (mantissa and decimal exponent). -/
def parseDecimalNumber (cs : List Char) : Option (Int × Int) :=
  let intDigits := cs.takeWhile Char.isDigit
  let rest1 := cs.dropWhile Char.isDigit
  match rest1 with
  | '.' :: rest2 =>
    let fracDigits := rest2.takeWhile Char.isDigit
    let rest3 := rest2.dropWhile Char.isDigit
    if intDigits.isEmpty && fracDigits.isEmpty then none
    else
      match parseExpPart rest3 with
      | none => none
      | some ex =>
        some ((digitsToNat (intDigits ++ fracDigits) : Int),
          ex - (fracDigits.length : Int))
  | _ =>
    if intDigits.isEmpty then none
    else
      match parseExpPart rest1 with
      | none => none
      | some ex => some ((digitsToNat intDigits : Int), ex)

/-- `str::parse::<f64>`. -/
def parseF64 (s : String) : Option F64Val :=
  let sr := splitSign s.toList
  let lower := sr.2.map Char.toLower
  if lower = "inf".toList ∨ lower = "infinity".toList then
    some (if sr.1 then F64Val.negInf else F64Val.inf)
  else if lower = "nan".toList then some F64Val.nan
  else
    match parseDecimalNumber sr.2 with
    | some me => some (F64Val.num (if sr.1 then -me.1 else me.1) me.2)
    | none => none

/-- Exact comparison of two decimal values `m1*10^e1 < m2*10^e2`. -/
def decimalLt (m1 e1 m2 e2 : Int) : Bool :=
  if e2 ≤ e1 then decide (m1 * tenPow (e1 - e2).toNat < m2)
  else decide (m1 < m2 * tenPow (e2 - e1).toNat)

/-- IEEE `<` on parsed values: any comparison with NaN is `false`. -/
def f64Lt : F64Val → F64Val → Bool
  | .nan, _ => false
  | _, .nan => false
  | .negInf, .negInf => false
  | .negInf, _ => true
  | _, .negInf => false
  | .inf, _ => false
  | .num _ _, .inf => true
  | .num m1 e1, .num m2 e2 => decimalLt m1 e1 m2 e2

/-- `str::parse::<i32>`: optional sign, digits, `i32` range check. -/
def parseI32 (s : String) : Option Int :=
  let sr := splitSign s.toList
  if sr.2.isEmpty || !(sr.2.all Char.isDigit) then none
  else
    let v : Int := if sr.1 then -(digitsToNat sr.2 : Int) else (digitsToNat sr.2 : Int)
    if -2147483648 ≤ v ∧ v ≤ 2147483647 then some v else none

/-- `validate_product_form` (product_management.rs lines 276-322):
checks in order, short-circuiting at the first violation; `> 999999.99`
is Rust's `999999.99 < price` with IEEE semantics. -/
def validate_product_form (form : EditProductForm) :
    Except String (F64Val × Int) :=
  if (trimChars form.name.toList).isEmpty then
    .error "Product name cannot be empty"
  else if strByteLen form.name > 255 then
    .error "Product name must be less than 255 characters"
  else
    match parseF64 (strTrim form.price) with
    | none => .error "Price must be a valid number"
    | some price =>
      if f64Lt price (F64Val.num 0 0) then .error "Price cannot be negative"
      else if f64Lt (F64Val.num 99999999 (-2)) price then
        .error "Price cannot exceed £999,999.99"
      else
        match parseI32 (strTrim form.quantity) with
        | none => .error "Quantity must be a valid number"
        | some quantity =>
          if quantity < 0 then .error "Quantity cannot be negative"
          else if quantity > 999999 then .error "Quantity cannot exceed 999,999"
          else if strByteLen form.description > 5000 then
            .error "Description must be less than 5,000 characters"
          else .ok (price, quantity)

/-- The `$set` document of `update_product` (product_management.rs
lines 183-191): the raw form strings for name, price and description,
the parsed quantity, and `adoptable = form.adoptable.is_some()`. -/
def applyProductUpdate (form : EditProductForm) (q : Int) (p : Product) : Product :=
  { p with
    name := form.name
    price := form.price
    quantity := q
    description := form.description
    adoptable := form.adoptable.isSome }

/-- `update_one` by `_id` on the products collection. -/
def updateOneProduct (coll : List Product) (oid : String) (f : Product → Product) :
    List Product × Nat :=
  match coll with
  | [] => ([], 0)
  | p :: rest =>
    if p.id == oid then (f p :: rest, 1)
    else
      let r := updateOneProduct rest oid f
      (p :: r.1, r.2)

/-- The response shapes of `update_product`. -/
inductive UpdateProductResponse where
  | redirectLogin
  | forbidden
  | badRequest (msg : String)
  | editFormWithError (msg : String)
  | notFound
  | redirectSuccess
deriving DecidableEq, Repr

/-- `update_product` (product_management.rs lines 147-214) in the
fault-free store case: the response together with the collection
contents afterwards.  A validation failure re-renders the edit form
with the error and performs no write. -/
def update_product (user : UserState) (idStr : String) (form : EditProductForm)
    (coll : List Product) : UpdateProductResponse × List Product :=
  if !user.is_authenticated then (.redirectLogin, coll)
  else if !user.is_admin then (.forbidden, coll)
  else
    match parseObjectId idStr with
    | none => (.badRequest "Invalid product ID", coll)
    | some oid =>
      match validate_product_form form with
      | .error msg => (.editFormWithError msg, coll)
      | .ok res =>
        if (updateOneProduct coll oid (applyProductUpdate form res.2)).2 = 0 then
          (.notFound, (updateOneProduct coll oid (applyProductUpdate form res.2)).1)
        else
          (.redirectSuccess, (updateOneProduct coll oid (applyProductUpdate form res.2)).1)

/-- `delete_one` by `_id` on the products collection. -/
def deleteOneProduct (coll : List Product) (oid : String) : List Product × Nat :=
  match coll with
  | [] => ([], 0)
  | p :: rest =>
    if p.id == oid then (rest, 1)
    else
      let r := deleteOneProduct rest oid
      (p :: r.1, r.2)

/-- `delete_product` (product_management.rs lines 217-273) in the
fault-free store case; note the handler checks only `is_admin`. -/
def delete_product (user : UserState) (idStr : String) (coll : List Product) :
    ProductOperationResponse × List Product :=
  if !user.is_admin then
    ({ success := false, message := "Access denied", product_id := none }, coll)
  else
    match parseObjectId idStr with
    | none =>
      ({ success := false, message := "Invalid product ID", product_id := none }, coll)
    | some oid =>
      if (deleteOneProduct coll oid).2 = 0 then
        ({ success := false, message := "Product not found", product_id := none },
         (deleteOneProduct coll oid).1)
      else
        ({ success := true, message := "Product deleted successfully",
           product_id := some idStr },
         (deleteOneProduct coll oid).1)

/-- The product-edit form with price `NaN` that validation accepts. -/
def c4NanForm : EditProductForm :=
  { name := "Widget", price := "NaN", quantity := "3",
    description := "A widget", adoptable := none }

/-- C4: the NaN hole.  `"NaN".parse::<f64>()` succeeds, and both guards
`price < 0.0` and `price > 999999.99` are `false` for NaN, so
`validate_product_form` accepts a price field that denotes no number at
all, and `update_product` persists the literal string `NaN` — against
the claim that validation succeeds only when the price field denotes a
non-negative number not exceeding 999,999.99. -/
theorem C4_nan_price_accepted :
    validate_product_form c4NanForm = .ok (F64Val.nan, 3)
    ∧ (update_product adminState "64a000000000000000000005" c4NanForm
        [{ id := "64a000000000000000000005", name := "Old", image_url := "img.png",
           price := "1.00", quantity := 1, description := "", adoptable := false }]).2
      = [{ id := "64a000000000000000000005", name := "Widget", image_url := "img.png",
           price := "NaN", quantity := 3, description := "A widget",
           adoptable := false }] := by
  exact ⟨by rfl, by decide⟩

lemma updateOneProduct_append (l1 l2 : List Product) (p : Product) (oid : String)
    (f : Product → Product)
    (hmiss : ∀ x ∈ l1, x.id ≠ oid) (hit : p.id = oid) :
    updateOneProduct (l1 ++ p :: l2) oid f = (l1 ++ f p :: l2, 1) := by
  induction l1 with
  | nil =>
    unfold updateOneProduct
    simp only [List.nil_append]
    rw [if_pos (by simp [hit])]
  | cons x xs ih =>
    unfold updateOneProduct
    simp only [List.cons_append]
    rw [if_neg (by simp [hmiss x (List.mem_cons_self x xs)])]
    rw [ih (fun y hy => hmiss y (List.mem_cons_of_mem x hy))]

/-- C10: when validation passes, `update_product` writes the raw
(untrimmed) submitted `price` string verbatim — discarding the parsed
numeric price — stores the quantity as the parsed integer, and stores
name, description and the `adoptable` checkbox (present iff checked) as
submitted, leaving `id` and `image_url` untouched. -/
theorem C10_price_verbatim (user : UserState) (idStr : String)
    (form : EditProductForm) (price : F64Val) (q : Int)
    (l1 l2 : List Product) (p : Product) (oid : String)
    (hauth : user.is_authenticated = true) (hadmin : user.is_admin = true)
    (hparse : parseObjectId idStr = some oid)
    (hval : validate_product_form form = .ok (price, q))
    (hmiss : ∀ x ∈ l1, x.id ≠ oid) (hit : p.id = oid) :
    update_product user idStr form (l1 ++ p :: l2)
      = (.redirectSuccess,
         l1 ++ { id := p.id, name := form.name, image_url := p.image_url,
                 price := form.price, quantity := q,
                 description := form.description,
                 adoptable := form.adoptable.isSome } :: l2) := by
  unfold update_product
  rw [if_neg (by simp [hauth]), if_neg (by simp [hadmin]), hparse, hval]
  dsimp only
  rw [updateOneProduct_append l1 l2 p oid (applyProductUpdate form q) hmiss hit]
  rfl

/-- Witness for C10: a concrete update where the stored `price` is the
raw string `" 12.50 "` (spaces included) while the parsed price
`12.50` is discarded and the parsed quantity `7` is stored. -/
theorem C10_price_verbatim_witness :
    update_product adminState "64a000000000000000000006"
        { name := "New Name", price := " 12.50 ", quantity := "7",
          description := "desc", adoptable := some "on" }
        ([] ++ { id := "64a000000000000000000006", name := "Old",
                 image_url := "i.png", price := "1.00", quantity := 1,
                 description := "", adoptable := false } :: [])
      = (.redirectSuccess,
         [] ++ { id := "64a000000000000000000006", name := "New Name",
                 image_url := "i.png", price := " 12.50 ", quantity := 7,
                 description := "desc", adoptable := true } :: []) :=
  C10_price_verbatim adminState "64a000000000000000000006"
    { name := "New Name", price := " 12.50 ", quantity := "7",
      description := "desc", adoptable := some "on" }
    (F64Val.num 1250 (-2)) 7 [] []
    { id := "64a000000000000000000006", name := "Old", image_url := "i.png",
      price := "1.00", quantity := 1, description := "", adoptable := false }
    "64a000000000000000000006"
    (by decide) (by decide) (by decide) (by rfl) (by simp) rfl

/-- C9: `extract_user_state` only ever marks a session admin when it is
authenticated (an anonymous session yields the all-false default), so
the handlers that check only `is_admin` — `update_order_status` and
`delete_product` — also deny every anonymous request without touching
the store. -/
theorem C9_admin_invariant (session : Option User) :
    ((extract_user_state session).is_admin = true →
      (extract_user_state session).is_authenticated = true)
    ∧ (session = none → extract_user_state session = UserState.defaultState)
    ∧ ((extract_user_state session).is_authenticated = false →
        (∀ (now : String) (form : UpdateOrderStatusForm)
            (active completed : List Order),
          update_order_status (extract_user_state session) now form active completed
            = ({ success := false, message := "Access denied", order_id := none },
               active, completed))
        ∧ (∀ (idStr : String) (coll : List Product),
          delete_product (extract_user_state session) idStr coll
            = ({ success := false, message := "Access denied", product_id := none },
               coll))) := by
  cases session with
  | none =>
    refine ⟨fun h => absurd h (by decide), fun _ => rfl, fun _ => ⟨?_, ?_⟩⟩
    · intro now form active completed
      rfl
    · intro idStr coll
      rfl
  | some u =>
    refine ⟨fun _ => rfl, fun h => Option.noConfusion h, fun hfalse => ?_⟩
    exact absurd hfalse (by simp [extract_user_state, UserState.new])

/-- Witness for C9: the anonymous session is denied by both handlers. -/
theorem C9_admin_invariant_witness :
    update_order_status (extract_user_state none) "2025-01-01T00:00:00Z"
        { order_id := "64a000000000000000000002", status := "paid" } [] []
      = ({ success := false, message := "Access denied", order_id := none }, [], [])
    ∧ delete_product (extract_user_state none) "64a000000000000000000002" []
      = ({ success := false, message := "Access denied", product_id := none }, []) := by
  have h := (C9_admin_invariant none).2.2 (by decide)
  exact ⟨h.1 "2025-01-01T00:00:00Z"
      { order_id := "64a000000000000000000002", status := "paid" } [] [],
    h.2 "64a000000000000000000002" []⟩

end FoxyAdmin
